import Mathlib

/-!
Verification of the routing layer of treeverse/hadoop-router-fs.

The repository ships a Spark demo client (`sample_app/spark_client.py`,
`sample_app/main.py`) that configures the RouterFS virtual filesystem via
Hadoop configuration keys.  The routing layer itself (rule table, path
resolver, facade) is referenced only through configuration, so it is
modelled here from the specification; the demo client's configuration
side is embedded directly from `spark_client.py`.
-/

instance {ε α : Type} [DecidableEq ε] [DecidableEq α] : DecidableEq (Except ε α) :=
  fun a b =>
    match a, b with
    | .error e, .error f =>
      if h : e = f then isTrue (by rw [h]) else isFalse (by intro hh; cases hh; exact h rfl)
    | .ok x, .ok y =>
      if h : x = y then isTrue (by rw [h]) else isFalse (by intro hh; cases hh; exact h rfl)
    | .error _, .ok _ => isFalse (by intro hh; cases hh)
    | .ok _, .error _ => isFalse (by intro hh; cases hh)

namespace RouterSpec

/-- Modelled from the spec: a prefix-rewrite mapping of the Rule Table
(RewriteRule in §3 DATA MODEL); the router's own source is not in the
repository snapshot, only its configuration surface is. -/
structure RewriteRule where
  scheme : String
  matchPrefix : String
  replacement : String
  backendId : String
deriving DecidableEq, Repr

/-- Modelled from the spec: the per-call result of path resolution
(ResolvedLocation in §3 DATA MODEL). -/
structure ResolvedLocation where
  physicalPath : String
  backendId : String
deriving DecidableEq, Repr

/-- Modelled from the spec: the immutable router configuration
(RouterConfig in §3 DATA MODEL): an ordered rule sequence plus a
scheme → default-backend mapping. -/
structure RouterConfig where
  rules : List RewriteRule
  defaultBackendByScheme : List (String × String)
deriving DecidableEq, Repr

/-- Modelled from the spec: the per-call resolution errors of §7
(MalformedPathError, UnroutablePathError). -/
inductive ResolveError where
  | malformedPath
  | unroutablePath
deriving DecidableEq, Repr

/-- The character sequence of the `://` scheme separator. -/
def schemeSep : List Char := [':', '/', '/']

/-- Modelled from the spec: split a path at the first occurrence of the
`://` separator (§4.2 step 1), returning the scheme portion and the
remainder, or `none` when no separator occurs. -/
def splitScheme : List Char → Option (List Char × List Char)
  | [] => none
  | c :: rest =>
    if c = ':' ∧ rest.take 2 = ['/', '/'] then
      some ([], rest.drop 2)
    else
      (splitScheme rest).map (fun sr => (c :: sr.1, sr.2))

/-- Modelled from the spec: a rule matches when its `matchPrefix` is a
literal prefix of the logical path (§4.2 step 2, no glob/regex). -/
def ruleMatches (r : RewriteRule) (p : String) : Bool :=
  r.matchPrefix.data.isPrefixOf p.data

/-- Modelled from the spec: the matched rule's rewrite (§4.2 step 3):
`replacement` concatenated with the remainder of the logical path after
stripping `matchPrefix`; the backend id is the rule's. -/
def applyRule (r : RewriteRule) (p : String) : ResolvedLocation :=
  { physicalPath := r.replacement ++ String.mk (p.data.drop r.matchPrefix.data.length),
    backendId := r.backendId }

/-- Modelled from the spec: `allRules(scheme)`, the scheme's rule
sequence in registration order (§4.1). -/
def rulesForScheme (cfg : RouterConfig) (scheme : String) : List RewriteRule :=
  cfg.rules.filter (fun r => r.scheme == scheme)

/-- Modelled from the spec: the scheme's configured default backend id,
when one exists (§4.2 step 4). -/
def defaultFor (cfg : RouterConfig) (scheme : String) : Option String :=
  (cfg.defaultBackendByScheme.find? (fun kv => kv.1 == scheme)).map (fun kv => kv.2)

/-- Modelled from the spec: resolution once the scheme is known
(§4.2 steps 2-4): first matching rule in registration order, else the
default backend with the path unchanged, else `UnroutablePathError`. -/
def resolveWithScheme (cfg : RouterConfig) (scheme : String) (p : String) :
    Except ResolveError ResolvedLocation :=
  match (rulesForScheme cfg scheme).find? (fun r => ruleMatches r p) with
  | some r => .ok (applyRule r p)
  | none =>
    match defaultFor cfg scheme with
    | some b => .ok { physicalPath := p, backendId := b }
    | none => .error .unroutablePath

/-- Modelled from the spec: `resolve(logicalPath)` of the Path Resolver
(§4.2): extract the scheme before `://` (failing with
`MalformedPathError` when absent), then resolve against the scheme's
rules. -/
def resolve (cfg : RouterConfig) (p : String) : Except ResolveError ResolvedLocation :=
  match splitScheme p.data with
  | none => .error .malformedPath
  | some sr => resolveWithScheme cfg (String.mk sr.1) p

/-- Modelled from the spec: the state seen by the Router Filesystem
Facade (§4.4): the immutable `RouterConfig` it owns plus the state of
the delegated backends, abstracted as a type parameter. -/
structure RouterState (σ : Type) where
  config : RouterConfig
  backendState : σ

/-- Modelled from the spec: one facade operation (§4.4): resolve the
logical path, then delegate to the selected backend (an abstract action
on the backend state receiving the backend id and physical path);
resolution errors propagate unchanged. -/
def facadeCall {σ ρ : Type} (act : String → String → σ → σ × ρ)
    (st : RouterState σ) (p : String) : Except ResolveError (RouterState σ × ρ) :=
  match resolve st.config p with
  | .error e => .error e
  | .ok loc =>
    let out := act loc.backendId loc.physicalPath st.backendState
    .ok ({ config := st.config, backendState := out.1 }, out.2)

/-- The error component of an `Except` result. -/
def exceptErr {ε α : Type} : Except ε α → Option ε
  | .error e => some e
  | .ok _ => none

/-! ### Concrete configurations used as witnesses -/

/-- The rewrite rule of the spec's §8 example (the demo's rule 1). -/
def ruleDemo : RewriteRule :=
  { scheme := "s3a", matchPrefix := "s3a://bucket/dir/",
    replacement := "lakefs://router/main/", backendId := "lakefs" }

/-- The spec's §8 example configuration: one rule plus a default backend
for scheme `s3a`. -/
def cfgDemo : RouterConfig :=
  { rules := [ruleDemo], defaultBackendByScheme := [("s3a", "s3a")] }

/-- A broad rule registered before a narrower one with an overlapping
match region. -/
def ruleBroad : RewriteRule :=
  { scheme := "s3a", matchPrefix := "s3a://data/",
    replacement := "first://", backendId := "general" }

/-- A narrower rule registered after `ruleBroad`; shadowed on the paths
both rules match. -/
def ruleNarrow : RewriteRule :=
  { scheme := "s3a", matchPrefix := "s3a://data/sub/",
    replacement := "second://", backendId := "specific" }

/-- Configuration registering the broad rule before the narrow one. -/
def cfgShadow : RouterConfig :=
  { rules := [ruleBroad, ruleNarrow], defaultBackendByScheme := [] }

/-- The more specific of the spec's first-match-wins example rules,
registered first. -/
def ruleAB : RewriteRule :=
  { scheme := "s", matchPrefix := "s://a/b/", replacement := "ab://", backendId := "bAB" }

/-- The more general of the spec's first-match-wins example rules,
registered second. -/
def ruleA : RewriteRule :=
  { scheme := "s", matchPrefix := "s://a/", replacement := "a://", backendId := "bA" }

/-- The spec's first-match-wins example: prefixes for `a/b/` and `a/`
registered in that order. -/
def cfgOrder : RouterConfig :=
  { rules := [ruleAB, ruleA], defaultBackendByScheme := [] }

/-- A configuration with zero rules and no default backend. -/
def cfgEmpty : RouterConfig := { rules := [], defaultBackendByScheme := [] }

/-- A concrete backend action over a `Nat` backend state. -/
def demoAct : String → String → Nat → Nat × String :=
  fun b q n => (n + 1, b ++ ":" ++ q)

/-- A concrete backend action over a `Bool` backend state. -/
def demoActB : String → String → Bool → Bool × Nat :=
  fun _ _ bl => (bl, 7)

/-- A concrete facade state over `cfgDemo` with a `Nat` backend state. -/
def demoSt : RouterState Nat := { config := cfgDemo, backendState := 0 }

/-- A concrete facade state over `cfgDemo` with a `Bool` backend state. -/
def demoStB : RouterState Bool := { config := cfgDemo, backendState := true }

end RouterSpec

namespace SampleApp

/-- A process environment: a partial map from variable names to values,
as consulted by `os.environ.get` / `os.getenv` in `spark_client.py`. -/
def Env : Type := String → Option String

/-- `os.environ.get(key, default)` (equivalently `os.getenv`): the
variable's value, or the default when unset. -/
def envGet (env : Env) (key dflt : String) : String := (env key).getD dflt

/-- `repo_name` of `SparkClient.__init__` (spark_client.py line 24). -/
def repo_name : String := "router"

/-- `branch_name` of `SparkClient.__init__` (spark_client.py line 25). -/
def branch_name : String := "main"

/-- `path` of `SparkClient.__init__` (spark_client.py line 26). -/
def path : String := ""

/-- The ordered sequence of `hadoopConfiguration().set(key, value)`
calls performed by `SparkClient.__init__` (spark_client.py lines 28-48),
as a function of the process environment. -/
def sparkClientInitSets (env : Env) : List (String × String) :=
  let lakefs_endpoint := envGet env "LAKECTL_SERVER_ENDPOINT_URL" "http://127.0.0.1:8000"
  let lakefs_key := envGet env "LAKEFS_ACCESS_KEY" ""
  let lakefs_secret := envGet env "LAKEFS_SECRET_KEY" ""
  let aws_s3_endpoint := envGet env "S3_ENDPOINT" "https://s3.us-east-1.amazonaws.com"
  let aws_key := envGet env "AWS_ACCESS_KEY" ""
  let aws_secret := envGet env "AWS_SECRET_KEY" ""
  let replacePrefix := envGet env "S3A_REPLACE_PREFIX" "s3a://bucket/dir/"
  [("fs.s3a.impl", "io.lakefs.routerfs.RouterFileSystem"),
   ("fs.s3a.bucket." ++ repo_name ++ ".path.style.access", "true"),
   ("fs.s3a.bucket." ++ repo_name ++ ".endpoint", lakefs_endpoint),
   ("fs.s3a.bucket." ++ repo_name ++ ".access.key", lakefs_key),
   ("fs.s3a.bucket." ++ repo_name ++ ".secret.key", lakefs_secret),
   ("routerfs.mapping.s3a.1.replace", replacePrefix),
   ("routerfs.mapping.s3a.1.with",
     "lakefs://" ++ repo_name ++ "/" ++ branch_name ++ "/" ++ path),
   ("routerfs.default.fs.s3a", "org.apache.hadoop.fs.s3a.S3AFileSystem"),
   ("fs.lakefs.impl", "org.apache.hadoop.fs.s3a.S3AFileSystem"),
   ("fs.s3a.path.style.access", "true"),
   ("fs.s3a.endpoint", aws_s3_endpoint),
   ("fs.s3a.access.key", aws_key),
   ("fs.s3a.secret.key", aws_secret)]

/-- The value a Hadoop `Configuration` holds for key `k` after the given
sequence of `set` calls: the value of the last `set` for `k`, if any. -/
def hadoopGet (sets : List (String × String)) (k : String) : Option String :=
  (sets.reverse.find? (fun kv => kv.1 == k)).map (fun kv => kv.2)

/-- The empty process environment: no variable is set. -/
def envEmpty : Env := fun _ => none

end SampleApp

namespace RouterSpec

/-! ### Auxiliary lemmas about scheme splitting and first-match search -/

/-- A successful scheme split decomposes the path around the separator. -/
theorem splitScheme_eq_some (l : List Char) :
    ∀ a b : List Char, splitScheme l = some (a, b) → l = a ++ schemeSep ++ b := by
  induction l with
  | nil => intro a b h; simp [splitScheme] at h
  | cons c rest ih =>
    intro a b h
    rw [splitScheme] at h
    split at h
    · rename_i hc
      obtain ⟨hc1, hc2⟩ := hc
      have h2 := Option.some.inj h
      have ha : a = [] := (Prod.mk.injEq _ _ _ _ ▸ h2).1.symm
      have hb : b = rest.drop 2 := (Prod.mk.injEq _ _ _ _ ▸ h2).2.symm
      subst ha hb hc1
      have hrest : rest = '/' :: '/' :: rest.drop 2 := by
        conv_lhs => rw [← List.take_append_drop 2 rest, hc2]
        rfl
      conv_lhs => rw [hrest]
      rfl
    · cases hsr : splitScheme rest with
      | none => rw [hsr] at h; simp at h
      | some sr =>
        rw [hsr] at h
        have h2 := Option.some.inj h
        have ha : a = c :: sr.1 := (Prod.mk.injEq _ _ _ _ ▸ h2).1.symm
        have hb : b = sr.2 := (Prod.mk.injEq _ _ _ _ ▸ h2).2.symm
        subst ha hb
        have := ih sr.1 sr.2 hsr
        rw [List.cons_append, List.cons_append, ← List.cons_append]
        exact congrArg (c :: ·) this

/-- A path containing the separator always splits. -/
theorem splitScheme_isSome_append (a b : List Char) :
    (splitScheme (a ++ schemeSep ++ b)).isSome = true := by
  induction a with
  | nil =>
    rw [List.nil_append, schemeSep, List.cons_append, List.cons_append, List.cons_append,
      List.nil_append, splitScheme]
    simp
  | cons c a ih =>
    rw [List.cons_append, List.cons_append, splitScheme]
    split
    · rfl
    · cases hs : splitScheme (a ++ schemeSep ++ b) with
      | none => rw [hs] at ih; simp at ih
      | some sr => rfl

/-- A string with no scheme split admits no `://` decomposition. -/
theorem splitScheme_none_of_no_decomp (p : String)
    (hp : splitScheme p.data = none) : ∀ a b : String, p ≠ a ++ "://" ++ b := by
  intro a b heq
  have hdata : p.data = a.data ++ schemeSep ++ b.data := by
    rw [heq, String.data_append, String.data_append]
    rfl
  have hsome := splitScheme_isSome_append a.data b.data
  rw [← hdata, hp] at hsome
  simp at hsome

/-- `find?` returns the element at the least index satisfying the predicate. -/
theorem find?_of_first {α : Type} (P : α → Bool) :
    ∀ (l : List α) (i : Nat) (hi : i < l.length),
      P (l.get ⟨i, hi⟩) = true →
      (∀ k (hk : k < l.length), k < i → P (l.get ⟨k, hk⟩) = false) →
      l.find? P = some (l.get ⟨i, hi⟩) := by
  intro l
  induction l with
  | nil => intro i hi; simp at hi
  | cons a t ih =>
    intro i hi hP hfirst
    cases i with
    | zero =>
      exact List.find?_cons_of_pos _ hP
    | succ n =>
      have ha : P a = false := hfirst 0 (by simp) (Nat.succ_pos n)
      rw [List.find?_cons_of_neg _ (by simp [ha])]
      have hn : n < t.length := by simpa using hi
      have hPn : P (t.get ⟨n, hn⟩) = true := hP
      have hfirst2 : ∀ k (hk : k < t.length), k < n → P (t.get ⟨k, hk⟩) = false := by
        intro k hk hkn
        exact hfirst (k + 1) (by simpa using hk) (by omega)
      exact ih n hn hPn hfirst2

/-- `find?` skips a block of non-matching elements and returns the
matching element that follows it. -/
theorem find?_append_of_ne {α : Type} (P : α → Bool) (pre suf : List α) (r : α)
    (hpre : ∀ x ∈ pre, P x = false) (hr : P r = true) :
    (pre ++ r :: suf).find? P = some r := by
  induction pre with
  | nil => exact List.find?_cons_of_pos _ hr
  | cons a t ih =>
    rw [List.cons_append, List.find?_cons_of_neg _ (by simp [hpre a (by simp)])]
    exact ih (fun x hx => hpre x (by simp [hx]))

/-! ### Claim theorems -/

/-- Claim C1, amended: for every registered rule `r` of the path's
scheme whose `matchPrefix` is a literal prefix of the logical path `p`,
*provided no rule registered earlier for that scheme also matches `p`*,
`resolve p` returns physicalPath equal to `r.replacement` concatenated
with the remainder of `p` after stripping `r.matchPrefix`, and backendId
equal to `r.backendId`; the empty remainder is included and maps to the
replacement root. -/
theorem resolve_first_matching_rule_rewrites (cfg : RouterConfig) (p : String)
    (s rest : List Char) (r : RewriteRule) (pre suf : List RewriteRule) (rem : String)
    (hsplit : splitScheme p.data = some (s, rest))
    (hrules : rulesForScheme cfg (String.mk s) = pre ++ r :: suf)
    (hpre : ∀ r0 ∈ pre, ruleMatches r0 p = false)
    (hp : p = r.matchPrefix ++ rem) :
    resolve cfg p =
      .ok { physicalPath := r.replacement ++ rem, backendId := r.backendId } := by
  have hmatch : ruleMatches r p = true := by
    unfold ruleMatches
    rw [hp, String.data_append, List.isPrefixOf_iff_prefix]
    exact List.prefix_append _ _
  have hfind : (rulesForScheme cfg (String.mk s)).find? (fun r0 => ruleMatches r0 p)
      = some r := by
    rw [hrules]
    exact find?_append_of_ne _ pre suf r hpre hmatch
  have happly : applyRule r p =
      { physicalPath := r.replacement ++ rem, backendId := r.backendId } := by
    unfold applyRule
    rw [hp, String.data_append, List.drop_left]
  unfold resolve
  rw [hsplit]
  show resolveWithScheme cfg (String.mk s) p = _
  unfold resolveWithScheme
  rw [hfind]
  show Except.ok (applyRule r p) = _
  rw [happly]

/-- Claim C1, witness: the spec's §8 example rule applied to a path
equal to its match prefix (empty remainder) yields exactly the
replacement root. -/
theorem resolve_first_matching_rule_rewrites_witness :
    resolve cfgDemo "s3a://bucket/dir/" =
      .ok { physicalPath := "lakefs://router/main/", backendId := "lakefs" } := by
  exact resolve_first_matching_rule_rewrites cfgDemo "s3a://bucket/dir/"
    "s3a".data "bucket/dir/".data ruleDemo [] [] ""
    (by decide) (by decide) (by simp) (by decide)

/-- Claim C1, counterexample: with the broad rule for `s3a://data/`
registered before the narrow rule for `s3a://data/sub/`, the narrow rule
matches `s3a://data/sub/x` yet `resolve` does not return the narrow
rule's rewrite, so the claim's quantification over *every* matching
registered rule fails. -/
theorem resolve_every_matching_rule_counterexample :
    ruleNarrow ∈ cfgShadow.rules ∧
    ruleMatches ruleNarrow "s3a://data/sub/x" = true ∧
    resolve cfgShadow "s3a://data/sub/x" ≠
      Except.ok { physicalPath := ruleNarrow.replacement ++ "x",
                  backendId := ruleNarrow.backendId } := by
  decide

/-- Claim C2: when no registered rule's matchPrefix is a prefix of the
path and the path's scheme has a configured default backend id,
`resolve` returns the path unchanged with that default backend id. -/
theorem resolve_default_backend (cfg : RouterConfig) (p : String)
    (s rest : List Char) (b : String)
    (hsplit : splitScheme p.data = some (s, rest))
    (hnomatch : ∀ r ∈ cfg.rules, ruleMatches r p = false)
    (hdef : defaultFor cfg (String.mk s) = some b) :
    resolve cfg p = .ok { physicalPath := p, backendId := b } := by
  have hfind : (rulesForScheme cfg (String.mk s)).find? (fun r0 => ruleMatches r0 p)
      = none := by
    rw [List.find?_eq_none]
    intro r hr
    simp [hnomatch r (List.mem_filter.mp hr).1]
  unfold resolve
  rw [hsplit]
  show resolveWithScheme cfg (String.mk s) p = _
  unfold resolveWithScheme
  rw [hfind]
  show (match defaultFor cfg (String.mk s) with
    | some b => Except.ok (ResolvedLocation.mk p b)
    | none => Except.error ResolveError.unroutablePath) = _
  rw [hdef]

/-- Claim C2, witness: the spec's §8 example: a path of the `s3a` scheme
missed by the rule falls through to the default backend unchanged. -/
theorem resolve_default_backend_witness :
    resolve cfgDemo "s3a://otherbucket/x" =
      .ok { physicalPath := "s3a://otherbucket/x", backendId := "s3a" } := by
  exact resolve_default_backend cfgDemo "s3a://otherbucket/x"
    "s3a".data "otherbucket/x".data "s3a" (by decide) (by decide) (by decide)

/-- Claim C3: when two or more registered rules of the path's scheme
match the path, resolution is governed by the earliest-registered
matching rule (first-match-wins in registration order). -/
theorem resolve_first_match_wins (cfg : RouterConfig) (p : String) (s rest : List Char)
    (rs : List RewriteRule) (i j : Nat) (hi : i < rs.length) (hj : j < rs.length)
    (hrs : rs = rulesForScheme cfg (String.mk s))
    (hsplit : splitScheme p.data = some (s, rest))
    (hij : i < j)
    (hmi : ruleMatches (rs.get ⟨i, hi⟩) p = true)
    (hmj : ruleMatches (rs.get ⟨j, hj⟩) p = true)
    (hfirst : ∀ k (hk : k < rs.length), k < i → ruleMatches (rs.get ⟨k, hk⟩) p = false) :
    resolve cfg p = .ok (applyRule (rs.get ⟨i, hi⟩) p) := by
  have hfind : rs.find? (fun r0 => ruleMatches r0 p) = some (rs.get ⟨i, hi⟩) :=
    find?_of_first _ rs i hi hmi hfirst
  unfold resolve
  rw [hsplit]
  show resolveWithScheme cfg (String.mk s) p = _
  unfold resolveWithScheme
  rw [← hrs, hfind]

/-- Claim C3, witness: with prefixes for `a/b/` and `a/` registered in
that order, the path ending `a/b/c` resolves via the `a/b/` rule. -/
theorem resolve_first_match_wins_witness :
    resolve cfgOrder "s://a/b/c" =
      .ok { physicalPath := "ab://c", backendId := "bAB" } := by
  exact resolve_first_match_wins cfgOrder "s://a/b/c" "s".data "a/b/c".data
    [ruleAB, ruleA] 0 1 (by decide) (by decide) (by decide) (by decide)
    (by decide) (by decide) (by decide)
    (fun k hk hk0 => absurd hk0 (Nat.not_lt_zero k))

/-- Claim C4: a logical path with no `://` separator always fails with
`MalformedPathError` and never produces a `ResolvedLocation`. -/
theorem resolve_malformed_path (cfg : RouterConfig) (p : String)
    (h : ∀ a b : String, p ≠ a ++ "://" ++ b) :
    resolve cfg p = .error .malformedPath := by
  have hnone : splitScheme p.data = none := by
    cases hsp : splitScheme p.data with
    | none => rfl
    | some sr =>
      have hdecomp := splitScheme_eq_some p.data sr.1 sr.2 (by rw [hsp])
      have hps : p = String.mk sr.1 ++ "://" ++ String.mk sr.2 := by
        apply String.ext
        rw [hdecomp]
        rfl
      exact absurd hps (h _ _)
  unfold resolve
  rw [hnone]

/-- Claim C4, witness: a scheme-less path fails resolution with
`MalformedPathError`. -/
theorem resolve_malformed_path_witness :
    resolve cfgDemo "bucket/dir/out" = .error .malformedPath := by
  exact resolve_malformed_path cfgDemo "bucket/dir/out"
    (splitScheme_none_of_no_decomp _ (by decide))

/-- Claim C5: when the path's scheme has no matching rule and no
configured default backend id, `resolve` fails with
`UnroutablePathError`. -/
theorem resolve_unroutable (cfg : RouterConfig) (p : String) (s rest : List Char)
    (hsplit : splitScheme p.data = some (s, rest))
    (hnomatch : ∀ r ∈ rulesForScheme cfg (String.mk s), ruleMatches r p = false)
    (hdef : defaultFor cfg (String.mk s) = none) :
    resolve cfg p = .error .unroutablePath := by
  have hfind : (rulesForScheme cfg (String.mk s)).find? (fun r0 => ruleMatches r0 p)
      = none := by
    rw [List.find?_eq_none]
    intro r hr
    simp [hnomatch r hr]
  unfold resolve
  rw [hsplit]
  show resolveWithScheme cfg (String.mk s) p = _
  unfold resolveWithScheme
  rw [hfind]
  show (match defaultFor cfg (String.mk s) with
    | some b => Except.ok (ResolvedLocation.mk p b)
    | none => Except.error ResolveError.unroutablePath) = _
  rw [hdef]

/-- Claim C5, witness: under a configuration with zero rules and no
default, a well-formed `s3a` path fails with `UnroutablePathError`. -/
theorem resolve_unroutable_witness :
    resolve cfgEmpty "s3a://x" = .error .unroutablePath := by
  exact resolve_unroutable cfgEmpty "s3a://x" "s3a".data "x".data
    (by decide) (by decide) (by decide)

/-- Claim C6: the router configuration is immutable after construction:
every successful facade operation — for arbitrary backend-state types
and backend actions — returns a state whose `RouterConfig` component is
unchanged; the model exposes no operation that mutates it. -/
theorem facadeCall_preserves_config {σ ρ : Type}
    (act : String → String → σ → σ × ρ) (st : RouterState σ) (p : String)
    (st2 : RouterState σ) (out : ρ)
    (h : facadeCall act st p = .ok (st2, out)) : st2.config = st.config := by
  unfold facadeCall at h
  cases hres : resolve st.config p with
  | error e => rw [hres] at h; cases h
  | ok loc =>
    rw [hres] at h
    injection h with h1
    have h2 := congrArg (fun q => q.1.config) h1
    simpa using h2.symm

/-- Claim C6, witness: a delegated write through the demo configuration
changes the backend state but leaves the configuration intact. -/
theorem facadeCall_preserves_config_witness :
    (RouterState.mk cfgDemo 1 : RouterState Nat).config = demoSt.config := by
  exact facadeCall_preserves_config demoAct demoSt "s3a://bucket/dir/out"
    (RouterState.mk cfgDemo 1) "lakefs:lakefs://router/main/out" (by rfl)

/-- Claim C8: resolution is pure: its outcome depends only on the
immutable configuration — for any two facade states sharing a
configuration, over arbitrary backend-state types and backend actions,
`resolve` returns the same result, and `facadeCall` fails with the same
resolution error independently of the backend side; resolution itself
never consults the backend state. -/
theorem resolve_pure {σ₁ σ₂ ρ₁ ρ₂ : Type}
    (act₁ : String → String → σ₁ → σ₁ × ρ₁) (act₂ : String → String → σ₂ → σ₂ × ρ₂)
    (st₁ : RouterState σ₁) (st₂ : RouterState σ₂) (p : String)
    (hcfg : st₁.config = st₂.config) :
    resolve st₁.config p = resolve st₂.config p ∧
    exceptErr (facadeCall act₁ st₁ p) = exceptErr (facadeCall act₂ st₂ p) := by
  constructor
  · rw [hcfg]
  · unfold facadeCall
    rw [hcfg]
    cases resolve st₂.config p with
    | error e => rfl
    | ok loc => rfl

/-- Claim C8, witness: two facade states with the demo configuration but
different backend-state types and actions resolve identically. -/
theorem resolve_pure_witness :
    resolve demoSt.config "s3a://bucket/dir/out" =
      resolve demoStB.config "s3a://bucket/dir/out" ∧
    exceptErr (facadeCall demoAct demoSt "s3a://bucket/dir/out") =
      exceptErr (facadeCall demoActB demoStB "s3a://bucket/dir/out") := by
  exact resolve_pure demoAct demoActB demoSt demoStB "s3a://bucket/dir/out" (by rfl)

end RouterSpec

namespace SampleApp

/-- Claim C9: for every process environment, `SparkClient.__init__` sets
the Hadoop key `fs.s3a.impl` to the constant
`io.lakefs.routerfs.RouterFileSystem`, so every `s3a`-scheme filesystem
operation of the session dispatches through the router filesystem
regardless of environment-variable values. -/
theorem sets_router_impl (env : Env) :
    hadoopGet (sparkClientInitSets env) "fs.s3a.impl" =
      some "io.lakefs.routerfs.RouterFileSystem" := rfl

/-- Claim C10: the replacement prefix of the single rewrite rule is
environment-independent: any two environments yield the same
`routerfs.mapping.s3a.1.with` value, the hard-coded
`lakefs://router/main/` (repo, branch and path are constants), while
`routerfs.mapping.s3a.1.replace` is exactly the `S3A_REPLACE_PREFIX`
lookup with default `s3a://bucket/dir/`. -/
theorem with_value_env_independent (env1 env2 : Env) :
    hadoopGet (sparkClientInitSets env1) "routerfs.mapping.s3a.1.with" =
      hadoopGet (sparkClientInitSets env2) "routerfs.mapping.s3a.1.with" ∧
    hadoopGet (sparkClientInitSets env1) "routerfs.mapping.s3a.1.with" =
      some "lakefs://router/main/" ∧
    hadoopGet (sparkClientInitSets env1) "routerfs.mapping.s3a.1.replace" =
      some (envGet env1 "S3A_REPLACE_PREFIX" "s3a://bucket/dir/") :=
  ⟨rfl, rfl, rfl⟩

/-- Claim C7, counterexample: in the empty environment the demo
configures rule 1 (`routerfs.mapping.s3a.1.replace` and `.with` are both
set) yet sets no `routerfs.mapping.s3a.1.backend` key: the claimed third
per-rule key is absent from the configuration surface. -/
theorem no_rule_backend_key_counterexample :
    hadoopGet (sparkClientInitSets envEmpty) "routerfs.mapping.s3a.1.replace" =
      some "s3a://bucket/dir/" ∧
    hadoopGet (sparkClientInitSets envEmpty) "routerfs.mapping.s3a.1.with" =
      some "lakefs://router/main/" ∧
    hadoopGet (sparkClientInitSets envEmpty) "routerfs.mapping.s3a.1.backend" = none :=
  ⟨rfl, rfl, rfl⟩

/-- Claim C7, amended: for the rule configured under scheme `s3a`, the
configuration surface carries two per-rule keys —
`routerfs.mapping.s3a.1.replace` (prefix to match) and
`routerfs.mapping.s3a.1.with` (replacement prefix) — and no per-rule
`.backend` key; the rule's backend is named by the filesystem
implementation key of the rewritten scheme (`fs.lakefs.impl`), and
`routerfs.default.fs.s3a` names the filesystem used when no rule
matches. -/
theorem config_surface_keys (env : Env) :
    hadoopGet (sparkClientInitSets env) "routerfs.mapping.s3a.1.replace" =
      some (envGet env "S3A_REPLACE_PREFIX" "s3a://bucket/dir/") ∧
    hadoopGet (sparkClientInitSets env) "routerfs.mapping.s3a.1.with" =
      some "lakefs://router/main/" ∧
    hadoopGet (sparkClientInitSets env) "routerfs.mapping.s3a.1.backend" = none ∧
    hadoopGet (sparkClientInitSets env) "fs.lakefs.impl" =
      some "org.apache.hadoop.fs.s3a.S3AFileSystem" ∧
    hadoopGet (sparkClientInitSets env) "routerfs.default.fs.s3a" =
      some "org.apache.hadoop.fs.s3a.S3AFileSystem" :=
  ⟨rfl, rfl, rfl, rfl, rfl⟩

end SampleApp
